import Mathlib

/-
  Verification of the keploy wire-protocol interception core
  (src/pkg/proxy/integrations/mysqlparser/comInitDb.go: the MySQL
  ComInitDb decoder and the postgresparser RECORD/TEST engine).

  Byte buffers are modelled as `List Nat` (each element a byte value
  0..255, as produced by Go `[]byte`).  Fallible Go code is modelled
  with `Except`; a Go runtime fault (out-of-range index or slice) is
  modelled by the `GoPanic` error type.
-/

set_option maxRecDepth 4096

namespace Keploy

/- ===== Byte-level helpers ===== -/

/-- Go `string(data)` on a byte slice, restricted to the byte-per-char
view (agrees with Go UTF-8 decoding on ASCII payloads). -/
def bytesToString (l : List Nat) : String :=
  String.mk (l.map Char.ofNat)

/-- Go `binary.BigEndian.Uint32(buf[i:])`: big-endian 32-bit read at
offset `i`.  Out-of-range reads yield 0 bytes; every use in the source
is in-bounds. -/
def beUint32At (l : List Nat) (i : Nat) : Nat :=
  (l.getD i 0 % 256) * 16777216 + (l.getD (i+1) 0 % 256) * 65536 +
    (l.getD (i+2) 0 % 256) * 256 + (l.getD (i+3) 0 % 256)

/- ===== base64 (Go encoding/base64 StdEncoding) ===== -/

def base64Alphabet : List Char :=
  "ABCDEFGHIJKLMNOPQRSTUVWXYZabcdefghijklmnopqrstuvwxyz0123456789+/".toList

def base64Char (n : Nat) : Char := base64Alphabet.getD n 'A'

/-- Go `base64.StdEncoding.EncodeToString`. -/
def base64Encode : List Nat → String
  | [] => ""
  | [b0] =>
      String.mk [base64Char (b0 % 256 / 4), base64Char (b0 % 256 % 4 * 16), '=', '=']
  | [b0, b1] =>
      String.mk [base64Char (b0 % 256 / 4),
        base64Char (b0 % 256 % 4 * 16 + b1 % 256 / 16),
        base64Char (b1 % 256 % 16 * 4), '=']
  | b0 :: b1 :: b2 :: rest =>
      String.mk [base64Char (b0 % 256 / 4),
        base64Char (b0 % 256 % 4 * 16 + b1 % 256 / 16),
        base64Char (b1 % 256 % 16 * 4 + b2 % 256 / 64),
        base64Char (b2 % 256 % 64)] ++ base64Encode rest

def base64CharIndex (c : Char) : Option Nat :=
  base64Alphabet.indexOf? c

/-- Go `base64.StdEncoding.DecodeString`, on the chars of the string. -/
def base64DecodeAux : List Char → Except String (List Nat)
  | [] => .ok []
  | c0 :: c1 :: c2 :: c3 :: rest =>
      match base64CharIndex c0, base64CharIndex c1 with
      | some n0, some n1 =>
        if c2 = '=' then
          if c3 = '=' ∧ rest = [] then .ok [n0 * 4 + n1 / 16]
          else .error "illegal base64 data"
        else
          match base64CharIndex c2 with
          | some n2 =>
            if c3 = '=' then
              if rest = [] then .ok [n0 * 4 + n1 / 16, n1 % 16 * 16 + n2 / 4]
              else .error "illegal base64 data"
            else
              match base64CharIndex c3 with
              | some n3 =>
                (fun tl => (n0 * 4 + n1 / 16) :: (n1 % 16 * 16 + n2 / 4) ::
                    (n2 % 4 * 64 + n3) :: tl) <$> base64DecodeAux rest
              | none => .error "illegal base64 data"
          | none => .error "illegal base64 data"
      | _, _ => .error "illegal base64 data"
  | _ => .error "illegal base64 data"

def base64Decode (s : String) : Except String (List Nat) :=
  base64DecodeAux s.toList

/- ===== MySQL ComInitDb decoder (decodeComInitDb) ===== -/

structure ComInitDbPacket where
  Status : Nat := 0
  DbName : String := ""
  deriving Repr, DecidableEq

/-- Model of `decodeComInitDb` in comInitDb.go: errors when fewer than
2 bytes, otherwise byte 0 is the status and the rest is the database
name. -/
def decodeComInitDb (data : List Nat) : Except String ComInitDbPacket :=
  if data.length < 2 then .error "data too short for COM_INIT_DB"
  else .ok { Status := data.headD 0, DbName := bytesToString (data.drop 1) }

/- ===== Postgres structured-packet data model =====
   A faithful subset of models.Backend / models.Frontend: the fields the
   interception engine reads or writes in comInitDb.go.  Fields carried
   along untouched by the engine (wrapped pgproto3 message bodies) are
   modelled as the decoded payload each variant retains. -/

namespace pgproto3

structure PasswordMessage where
  Password : String := ""
  deriving Repr, DecidableEq

structure Parse where
  Body : List Nat := []
  deriving Repr, DecidableEq

structure Bind where
  Body : List Nat := []
  deriving Repr, DecidableEq

structure Execute where
  Body : List Nat := []
  deriving Repr, DecidableEq

structure CommandComplete where
  CommandTag : List Nat := []
  deriving Repr, DecidableEq

structure DataRow where
  RowValues : Option (List String) := none
  deriving Repr, DecidableEq

structure ParameterStatus where
  Name : String := ""
  Value : String := ""
  deriving Repr, DecidableEq

end pgproto3

/-- Request-side mock entry (models.Backend, the fields used in
comInitDb.go). -/
structure Backend where
  PacketTypes : List String := []
  Identfier : String := ""
  Length : Nat := 0
  Payload : String := ""
  PasswordMessage : pgproto3.PasswordMessage := {}
  Parse : pgproto3.Parse := {}
  Parses : List pgproto3.Parse := []
  Bind : pgproto3.Bind := {}
  Binds : List pgproto3.Bind := []
  Execute : pgproto3.Execute := {}
  Executes : List pgproto3.Execute := []
  MsgType : Nat := 0
  AuthType : Nat := 0
  deriving Repr, DecidableEq

/-- Response-side mock entry (models.Frontend, the fields used in
comInitDb.go). -/
structure Frontend where
  PacketTypes : List String := []
  Identfier : String := ""
  Length : Nat := 0
  Payload : String := ""
  CommandComplete : pgproto3.CommandComplete := {}
  CommandCompletes : List pgproto3.CommandComplete := []
  DataRow : pgproto3.DataRow := {}
  DataRows : List pgproto3.DataRow := []
  ParameterStatusCombined : List pgproto3.ParameterStatus := []
  MsgType : Nat := 0
  AuthType : Nat := 0
  deriving Repr, DecidableEq

/-- Mock record appended in RECORD mode (models.Mock with
Kind=Postgres, Name="mocks", metadata {"type": "config"}; the
timestamp fields carry wall-clock values and are elided). -/
structure Mock where
  PostgresRequests : List Backend := []
  PostgresResponses : List Frontend := []
  MetadataType : String := "config"
  deriving Repr, DecidableEq

/-- A Go runtime fault raised by the engine on malformed state: an
out-of-range slice expression or an index into an empty slice. -/
inductive GoPanic where
  | sliceOverrun (lo hi len : Nat)
  | indexOutOfRange
  deriving Repr, DecidableEq

/- ===== Protocol detector ===== -/

/-- Model of `(p *PostgresParser) OutgoingType`: false when fewer than
8 bytes, otherwise true exactly when the 4-byte big-endian field at
offset 4 is the SSL/cancel code 80877103 or protocol version 3.0
(0x00030000 = 196608). -/
def OutgoingType (buffer : List Nat) : Bool :=
  if buffer.length < 8 then false
  else if beUint32At buffer 4 = 80877103 then true
  else beUint32At buffer 4 = 196608

/-- Modelled from the spec: `isStartupPacket` is called by
encodePostgresOutgoing but its definition is not under src/.  Per spec
section 4.1 the detector inspects the fixed-offset 4-byte
version/request-code field against the known startup constants and
returns false when the buffer is shorter than the header. -/
def isStartupPacket (buffer : List Nat) : Bool :=
  if buffer.length < 8 then false
  else beUint32At buffer 4 = 196608 || beUint32At buffer 4 = 80877103

/- ===== Modelled structural decode (pgproto3 wrappers) ===== -/

/-- Modelled from the spec: the result of `TranslateToReadableBackend`
(pgproto3-backed, not under src/).  Per spec section 4.3 decode maps
the message-type tag to a variant constructor and unknown tags decode
to an opaque variant retaining the raw payload. -/
inductive BackendMsg where
  | passwordMessage (password : String)
  | parse (body : List Nat)
  | bind (body : List Nat)
  | execute (body : List Nat)
  | other (body : List Nat)
  deriving Repr, DecidableEq

/-- Modelled from the spec: `TranslateToReadableBackend` itself (not
under src/), total on all frames, selecting the variant by the tag
byte ('p' = 112, 'P' = 80, 'B' = 66, 'E' = 69). -/
def TranslateToReadableBackend (frame : List Nat) : BackendMsg :=
  let tag := frame.headD 0
  let payload := frame.drop 5
  if tag = 112 then .passwordMessage (bytesToString payload)
  else if tag = 80 then .parse payload
  else if tag = 66 then .bind payload
  else if tag = 69 then .execute payload
  else .other payload

/-- Modelled from the spec: the result of `TranslateToReadableResponse`
(not under src/); tag 'C' = 67 CommandComplete, 'D' = 68 DataRow (an
ordered sequence of column value strings, modelled as the payload
rendered as a single column), 'S' = 83 ParameterStatus, 'R' = 82
authentication. -/
inductive FrontendMsg where
  | commandComplete (tag : List Nat)
  | dataRow (values : List String)
  | parameterStatus (name : String) (value : String)
  | authentication (authType : Nat)
  | other (body : List Nat)
  deriving Repr, DecidableEq

/-- Modelled from the spec: `TranslateToReadableResponse` (not under
src/); fails on a frame too short to carry a header (a structural
decode error, spec section 7b), otherwise selects a variant by tag. -/
def TranslateToReadableResponse (frame : List Nat) : Except String FrontendMsg :=
  if frame.length < 5 then .error "malformed response frame"
  else
    let tag := frame.headD 0
    let payload := frame.drop 5
    if tag = 67 then .ok (.commandComplete payload)
    else if tag = 68 then .ok (.dataRow [bytesToString payload])
    else if tag = 83 then .ok (.parameterStatus (bytesToString payload) "")
    else if tag = 82 then .ok (.authentication (beUint32At payload 0))
    else .ok (.other payload)

/- ===== Stream framer + per-burst scratch state (RECORD mode) ===== -/

/-- The per-burst scratch wrapper for the request direction
(BackendWrapper fields used in comInitDb.go). -/
structure BackendWrapperState where
  MsgType : Nat := 0
  PacketTypes : List String := []
  PasswordMessage : pgproto3.PasswordMessage := {}
  Parse : pgproto3.Parse := {}
  Parses : List pgproto3.Parse := []
  Bind : pgproto3.Bind := {}
  Binds : List pgproto3.Bind := []
  Execute : pgproto3.Execute := {}
  Executes : List pgproto3.Execute := []
  AuthType : Nat := 0
  deriving Repr, DecidableEq

/-- The request-side framing loop (comInitDb.go lines 269-303).
`lenField` is the declared 4-byte frame length (Go `BodyLen + 4`), so
the bound check `len(buffer) < i+BodyLen+5` is `buffer.length <
i+lenField+1` and the step `i += 5+BodyLen` is `i+lenField+1`.  On a
declared length past the buffer end the loop halts (the logged
structural anomaly).  The returned list records the index range of
every slice `buffer[i : i+BodyLen+5]` the loop takes. -/
def goRequestLoop (buffer : List Nat) : Nat → BackendWrapperState → Nat →
    BackendWrapperState × List (Nat × Nat)
  | 0, st, _ => (st, [])
  | fuel + 1, st, i =>
    if i + 5 < buffer.length then
      let msgType := buffer.getD i 0
      let lenField := beUint32At buffer (i + 1)
      if buffer.length < i + lenField + 1 then (st, [])
      else
        let frame := (buffer.drop i).take (lenField + 1)
        let st1 := { st with MsgType := msgType }
        let st2 :=
          match TranslateToReadableBackend frame with
          | .passwordMessage pw => { st1 with PasswordMessage := { Password := pw } }
          | .parse b => { st1 with Parse := { Body := b }, Parses := st1.Parses ++ [({ Body := b } : pgproto3.Parse)] }
          | .bind b => { st1 with Bind := { Body := b }, Binds := st1.Binds ++ [({ Body := b } : pgproto3.Bind)] }
          | .execute b => { st1 with Execute := { Body := b }, Executes := st1.Executes ++ [({ Body := b } : pgproto3.Execute)] }
          | .other _ => st1
        let st3 := { st2 with PacketTypes := st2.PacketTypes ++ [String.singleton (Char.ofNat msgType)] }
        let rest := goRequestLoop buffer fuel st3 (i + lenField + 1)
        (rest.1, (i, i + lenField + 1) :: rest.2)
    else (st, [])

/-- The request-side framing loop started at index 0.  The fuel
argument of `goRequestLoop` only bounds the iteration count:
`buffer.length` iterations always suffice because the index strictly
increases while the loop requires `i + 5 < buffer.length`. -/
def requestLoop (buffer : List Nat) : BackendWrapperState × List (Nat × Nat) :=
  goRequestLoop buffer buffer.length {} 0

/-- The per-burst scratch wrapper for the response direction
(FrontendWrapper fields used in comInitDb.go). -/
structure FrontendWrapperState where
  MsgType : Nat := 0
  PacketTypes : List String := []
  CommandComplete : pgproto3.CommandComplete := {}
  CommandCompletes : List pgproto3.CommandComplete := []
  DataRow : pgproto3.DataRow := {}
  DataRows : List pgproto3.DataRow := []
  ParameterStatus : pgproto3.ParameterStatus := {}
  ParameterStatusCombined : List pgproto3.ParameterStatus := []
  AuthType : Nat := 0
  deriving Repr, DecidableEq

/-- Wrapper mutations performed inside the external
TranslateToReadableResponse (each decoded variant is stored in its
singleton slot of the scratch wrapper). -/
def applyFrontendMsg (st : FrontendWrapperState) : FrontendMsg → FrontendWrapperState
  | .commandComplete t => { st with CommandComplete := ⟨t⟩ }
  | .dataRow vs => { st with DataRow := { RowValues := some vs } }
  | .parameterStatus n v => { st with ParameterStatus := ⟨n, v⟩ }
  | .authentication a => { st with AuthType := a }
  | .other _ => st

/-- The response-side framing loop (comInitDb.go lines 382-410).
Unlike the request side, the source slices
`buffer[i : i+BodyLen+5]` with no bound check; a declared length past
the buffer end is therefore an out-of-range slice, modelled as
`GoPanic.sliceOverrun`.  A translate failure breaks out of the loop
(before the packet type is appended), keeping what was decoded so
far.  `ps` and `dataRows` accumulate the ParameterStatus and DataRow
lists of this buffer. -/
def goResponseLoop (buffer : List Nat) : Nat → FrontendWrapperState →
    List pgproto3.ParameterStatus → List pgproto3.DataRow → Nat →
    Except GoPanic (FrontendWrapperState × List pgproto3.ParameterStatus × List pgproto3.DataRow)
  | 0, st, ps, dataRows, _ => .ok (st, ps, dataRows)
  | fuel + 1, st, ps, dataRows, i =>
    if i + 5 < buffer.length then
      let msgType := buffer.getD i 0
      let lenField := beUint32At buffer (i + 1)
      let st1 := { st with MsgType := msgType }
      if buffer.length < i + lenField + 1 then
        .error (.sliceOverrun i (i + lenField + 1) buffer.length)
      else
        let frame := (buffer.drop i).take (lenField + 1)
        match TranslateToReadableResponse frame with
        | .error _ => .ok (st1, ps, dataRows)
        | .ok msg =>
          let st2 := applyFrontendMsg st1 msg
          let st3 := { st2 with PacketTypes := st2.PacketTypes ++ [String.singleton (Char.ofNat msgType)] }
          let ps2 := if st3.ParameterStatus.Name ≠ "" then ps ++ [st3.ParameterStatus] else ps
          let st4 :=
            match msg with
            | .commandComplete t =>
              { st3 with CommandComplete := ⟨t⟩, CommandCompletes := st3.CommandCompletes ++ [⟨t⟩] }
            | _ => st3
          let dataRows2 :=
            if msgType = 68 ∧ st4.DataRow.RowValues ≠ none then
              dataRows ++ [{ RowValues := st4.DataRow.RowValues }]
            else dataRows
          goResponseLoop buffer fuel st4 ps2 dataRows2 (i + lenField + 1)
    else .ok (st, ps, dataRows)

/-- The response-side framing loop started at index 0, with the same
always-sufficient fuel bound as `requestLoop`. -/
def responseLoop (buffer : List Nat) :
    Except GoPanic (FrontendWrapperState × List pgproto3.ParameterStatus × List pgproto3.DataRow) :=
  goResponseLoop buffer buffer.length {} [] [] 0

/- ===== Mock-entry construction with the round-trip guard ===== -/

/-- The structural request entry before the round-trip guard runs
(the pgMock literal, comInitDb.go lines 305-335; Payload commented out
there, so empty). -/
def requestDraft (w : BackendWrapperState) (reqLen : Nat) : Backend :=
  { PacketTypes := w.PacketTypes
    Identfier := "ClientRequest"
    Length := reqLen
    PasswordMessage := w.PasswordMessage
    Parse := w.Parse
    Parses := w.Parses
    Bind := w.Bind
    Binds := w.Binds
    Execute := w.Execute
    Executes := w.Executes
    MsgType := w.MsgType
    AuthType := w.AuthType }

/-- The request-side round-trip guard (comInitDb.go lines 336-344):
re-encode the draft (PostgresDecoderBackend, passed in as `encB` since
its body is not under src/), and on a length mismatch store the raw
base64 payload unless the first packet type is the password message
"p".  Go short-circuit evaluation indexes PacketTypes[0] only on a
mismatch; on an empty PacketTypes list that index is a runtime fault. -/
def mkRequestMock (encB : Backend → List Nat) (w : BackendWrapperState)
    (reqLen bufLen : Nat) (bufStr : String) : Except GoPanic Backend :=
  let draft := requestDraft w reqLen
  if (encB draft).length ≠ bufLen then
    match draft.PacketTypes.head? with
    | none => .error .indexOutOfRange
    | some t => .ok (if t ≠ "p" then { draft with Payload := bufStr } else draft)
  else .ok draft

/-- The structural response entry before the round-trip guard runs
(the pgMock literal, comInitDb.go lines 420-458). -/
def responseDraft (w : FrontendWrapperState) (reqLen : Nat) : Frontend :=
  { PacketTypes := w.PacketTypes
    Identfier := "ServerResponse"
    Length := reqLen
    CommandComplete := w.CommandComplete
    CommandCompletes := w.CommandCompletes
    DataRow := w.DataRow
    DataRows := w.DataRows
    ParameterStatusCombined := w.ParameterStatusCombined
    MsgType := w.MsgType
    AuthType := w.AuthType }

/-- The response-side round-trip guard (comInitDb.go lines 460-468):
`if (len(afterEncoded) != len(buffer) && pgMock.PacketTypes[0] != "R")
|| len(pgMock.DataRows) > 0 { pgMock.Payload = bufStr }`.  Left-to-right
short-circuit evaluation: PacketTypes[0] is indexed only on a length
mismatch, and a non-empty DataRows list forces the fallback even for
an authentication-first ("R") buffer or on equal lengths. -/
def mkResponseMock (encF : Frontend → List Nat) (w : FrontendWrapperState)
    (reqLen bufLen : Nat) (bufStr : String) : Except GoPanic Frontend :=
  let draft := responseDraft w reqLen
  if (encF draft).length ≠ bufLen then
    match draft.PacketTypes.head? with
    | none => .error .indexOutOfRange
    | some t => .ok (if t ≠ "R" ∨ draft.DataRows ≠ [] then { draft with Payload := bufStr } else draft)
  else .ok (if draft.DataRows ≠ [] then { draft with Payload := bufStr } else draft)

/- ===== Per-buffer processing (RECORD mode) ===== -/

/-- Processing of one client buffer read in the RECORD loop
(comInitDb.go lines 261-356): skip empty buffers; frame+decode
non-startup buffers longer than 5 bytes and run the round-trip guard;
record startup buffers as an opaque StartupRequest entry with only the
identifier and raw payload set. -/
def processClientBuffer (encB : Backend → List Nat) (reqLen : Nat) (buffer : List Nat) :
    Except GoPanic (List Backend) :=
  let bufStr := base64Encode buffer
  if bufStr = "" then .ok []
  else
    let structural : Except GoPanic (List Backend) :=
      if isStartupPacket buffer = false ∧ 5 < buffer.length then
        let w := (requestLoop buffer).1
        (mkRequestMock encB w reqLen buffer.length bufStr).map (fun m => [m])
      else .ok []
    let startup : List Backend :=
      if isStartupPacket buffer then [{ Identfier := "StartupRequest", Payload := bufStr }] else []
    structural.map (· ++ startup)

/-- Processing of one destination buffer read in the RECORD loop
(comInitDb.go lines 371-479): skip empty buffers; frame+decode
non-startup buffers longer than 5 bytes other than the "Tg==" (single
byte 'N') sentinel, fold the collected ParameterStatus and DataRow
lists into the wrapper, and run the round-trip guard; store the "Tg=="
sentinel or buffers of at most 5 bytes as a raw entry. -/
def processDestBuffer (encF : Frontend → List Nat) (reqLen : Nat) (buffer : List Nat) :
    Except GoPanic (List Frontend) :=
  let bufStr := base64Encode buffer
  if bufStr = "" then .ok []
  else
    let structural : Except GoPanic (List Frontend) :=
      if isStartupPacket buffer = false ∧ 5 < buffer.length ∧ bufStr ≠ "Tg==" then
        match responseLoop buffer with
        | .error p => .error p
        | .ok (w, ps, dataRows) =>
          let w1 := if ps ≠ [] then { w with ParameterStatusCombined := ps } else w
          let w2 := if dataRows ≠ [] then { w1 with DataRows := dataRows } else w1
          (mkResponseMock encF w2 reqLen buffer.length bufStr).map (fun m => [m])
      else .ok []
    let raw : List Frontend :=
      if bufStr = "Tg==" ∨ buffer.length ≤ 5 then [{ Payload := bufStr }] else []
    structural.map (· ++ raw)

/- ===== RECORD-mode relay state machine (encodePostgresOutgoing) ===== -/

/-- The per-session accumulators of encodePostgresOutgoing: the running
request and response packet lists and the "last event was a request"
flag. -/
structure RecordState where
  pgRequests : List Backend := []
  pgResponses : List Frontend := []
  isPreviousChunkRequest : Bool := false
  deriving Repr, DecidableEq

/-- The four event sources multiplexed by the select loop of
encodePostgresOutgoing: the interrupt signal, a client read, a
destination read, and a reader error. -/
inductive RecordEvent where
  | sigint
  | clientData (buffer : List Nat)
  | destData (buffer : List Nat)
  | ioError
  deriving Repr, DecidableEq

/-- The flush condition guarding both AppendMocks calls
(comInitDb.go lines 198 and 239):
`!isPreviousChunkRequest && len(pgRequests) > 0 && len(pgResponses) > 0`. -/
def flushGuard (s : RecordState) : Bool :=
  !s.isPreviousChunkRequest && !s.pgRequests.isEmpty && !s.pgResponses.isEmpty

/-- The Mock built at a flush (comInitDb.go lines 199-212 and
240-253). -/
def mkRecordMock (s : RecordState) : Mock :=
  { PostgresRequests := s.pgRequests, PostgresResponses := s.pgResponses }

instance {ε α : Type} [DecidableEq ε] [DecidableEq α] : DecidableEq (Except ε α) :=
  fun x y =>
    match x, y with
    | .ok a, .ok b =>
      if h : a = b then .isTrue (by rw [h]) else .isFalse (by intro hh; cases hh; exact h rfl)
    | .error a, .error b =>
      if h : a = b then .isTrue (by rw [h]) else .isFalse (by intro hh; cases hh; exact h rfl)
    | .ok _, .error _ => .isFalse (by intro hh; cases hh)
    | .error _, .ok _ => .isFalse (by intro hh; cases hh)

/-- Result of one iteration of the RECORD select loop: the Mocks
appended to the store during the iteration, the state afterwards (or a
runtime fault), and whether the loop ends. -/
structure RecordStepOut where
  emitted : List Mock := []
  next : Except GoPanic RecordState
  terminated : Bool := false
  deriving Repr, DecidableEq

/-- One iteration of the RECORD select loop (comInitDb.go lines
192-489).  On the interrupt signal a pending chunk is flushed and the
session ends.  On a client read the pending chunk is flushed first
(before the new request is processed) and the new entries are appended
to the reset request list; the last-event flag becomes true.  On a
destination read the decoded entries are appended to the response list
and the flag becomes false.  A reader error terminates the loop. -/
def recordStep (encB : Backend → List Nat) (encF : Frontend → List Nat) (reqLen : Nat)
    (s : RecordState) : RecordEvent → RecordStepOut
  | .sigint =>
    if flushGuard s then
      { emitted := [mkRecordMock s],
        next := .ok { pgRequests := [], pgResponses := [],
                      isPreviousChunkRequest := s.isPreviousChunkRequest },
        terminated := true }
    else { emitted := [], next := .ok s, terminated := false }
  | .clientData buffer =>
    let flushed := flushGuard s
    let em := if flushed then [mkRecordMock s] else []
    let reqs := if flushed then [] else s.pgRequests
    let resps := if flushed then [] else s.pgResponses
    match processClientBuffer encB reqLen buffer with
    | .error p => { emitted := em, next := .error p, terminated := true }
    | .ok entries =>
      { emitted := em,
        next := .ok { pgRequests := reqs ++ entries, pgResponses := resps,
                      isPreviousChunkRequest := true },
        terminated := false }
  | .destData buffer =>
    match processDestBuffer encF reqLen buffer with
    | .error p => { emitted := [], next := .error p, terminated := true }
    | .ok entries =>
      { emitted := [],
        next := .ok { pgRequests := s.pgRequests, pgResponses := s.pgResponses ++ entries,
                      isPreviousChunkRequest := false },
        terminated := false }
  | .ioError => { emitted := [], next := .ok s, terminated := true }

/-- The opaque startup entry recorded for the first client buffer of a
RECORD session (comInitDb.go lines 110-149).  Modelled from the spec:
DecodeStartupMessage (not under src/) treats the startup frame as an
opaque payload (spec section 4.1), leaving the structural wrapper
fields of the fresh backend wrapper at their zero values. -/
def initialStartupEntry (requestBuffer : List Nat) : Backend :=
  { Identfier := "StartupRequest"
    Length := requestBuffer.length
    Payload := base64Encode requestBuffer }

/-- The session state when the RECORD select loop starts
(comInitDb.go lines 106-190). -/
def initialRecordState (requestBuffer : List Nat) : RecordState :=
  { pgRequests := if base64Encode requestBuffer ≠ "" then [initialStartupEntry requestBuffer] else []
    pgResponses := []
    isPreviousChunkRequest := false }

/- ===== TEST-mode matcher / replayer (decodePostgresOutgoing) ===== -/

/-- The idle-read deadline set on the client connection per burst
(comInitDb.go line 519: `time.Now().Add(10 * time.Millisecond)`), in
milliseconds. -/
def readDeadlineMs : Nat := 10

/-- Outcome of one `util.ReadBytes(clientConn)` call under the
idle-read deadline: data, a net.Error timeout, EOF, or another fatal
error. -/
inductive ReadOutcome where
  | data (buf : List Nat)
  | timeout
  | eof
  | fatal (msg : String)
  deriving Repr, DecidableEq

/-- Outcome of the inner read loop of a TEST-mode burst. -/
inductive BurstOutcome where
  | complete (chunks : List (List Nat)) (rest : List ReadOutcome)
  | terminal (msg : String)
  | blocked
  deriving Repr, DecidableEq

/-- The inner read loop of decodePostgresOutgoing (lines 525-542): a
timeout ends the burst (break, not an error), EOF or another error is
fatal for the session, and data is appended to the burst in read
order.  A script with no further outcomes models a read that stays
blocked. -/
def collectClientReads : List ReadOutcome → List (List Nat) → BurstOutcome
  | [], _ => .blocked
  | .timeout :: rest, acc => .complete acc rest
  | .eof :: _, _ => .terminal "EOF"
  | .fatal m :: _, _ => .terminal m
  | .data b :: rest, acc => collectClientReads rest (acc ++ [b])

/-- Replay encoding of the matched response entries (comInitDb.go
lines 562-576): each entry is decoded from its base64 Payload
(PostgresDecoder), except that an entry with a non-empty PacketTypes
list and an empty Payload is structurally re-encoded
(PostgresDecoderFrontend, passed in as `encF` since its body is not
under src/); the first error aborts the replay. -/
def replayWrites (encF : Frontend → List Nat) : List Frontend → Except String (List (List Nat))
  | [] => .ok []
  | r :: rest =>
    let fromPayload := base64Decode r.Payload
    let chosen : Except String (List Nat) :=
      if r.PacketTypes.length > 0 ∧ r.Payload.length = 0 then .ok (encF r) else fromPayload
    match chosen with
    | .error e => .error e
    | .ok bytes =>
      match replayWrites encF rest with
      | .error e => .error e
      | .ok ws => .ok (bytes :: ws)

/-- The per-entry byte source stated the way the spec states it: a
structural entry (PacketTypes present, decoded Payload empty) is
re-encoded, anything else comes from its base64 payload.  Kept
separate from `replayWrites` (which mirrors the source) so the two can
be compared. -/
def specEntryBytes (encF : Frontend → List Nat) (r : Frontend) : Except String (List Nat) :=
  if r.PacketTypes ≠ [] ∧ r.Payload = "" then .ok (encF r) else base64Decode r.Payload

/-- What one iteration of the TEST-mode session loop does. -/
inductive TestAction where
  | passthrough (chunks : List (List Nat))
  | replay (writes : List (List Nat))
  | noAction
  deriving Repr, DecidableEq

/-- Result of one iteration of the TEST-mode session loop: the
arguments of every Matcher invocation, the resulting action towards
the connections, the request-chunk list carried into the next
iteration, a fatal error if any, and the Mocks recorded (TEST mode
never records any). -/
structure TestIterOut where
  matcherCalls : List (List (List Nat)) := []
  action : TestAction := .noAction
  nextRequests : List (List Nat) := []
  failed : Option String := none
  recordedMocks : List Mock := []
  deriving Repr, DecidableEq

/-- One iteration of the TEST-mode session loop (comInitDb.go lines
516-579): read the burst under the idle deadline; skip empty bursts;
ask the matcher (matchingReadablePG) once with the ordered chunk list;
on no match pass the burst through (pgRequests is not reset); on a
match replay the encoded responses and reset pgRequests. -/
def testIteration (encF : Frontend → List Nat)
    (matcher : List (List Nat) → Except String (Bool × List Frontend))
    (pgRequests : List (List Nat)) (reads : List ReadOutcome) : TestIterOut :=
  match collectClientReads reads pgRequests with
  | .blocked => { nextRequests := pgRequests }
  | .terminal m => { nextRequests := pgRequests, failed := some m }
  | .complete chunks _ =>
    if chunks.isEmpty then { nextRequests := chunks }
    else
      match matcher chunks with
      | .error e =>
        { matcherCalls := [chunks], nextRequests := chunks,
          failed := some ("error while matching tcs mocks " ++ e) }
      | .ok (false, _) =>
        { matcherCalls := [chunks], action := .passthrough chunks, nextRequests := chunks }
      | .ok (true, resps) =>
        match replayWrites encF resps with
        | .error e => { matcherCalls := [chunks], nextRequests := chunks, failed := some e }
        | .ok ws => { matcherCalls := [chunks], action := .replay ws, nextRequests := [] }

/-- Modelled from the spec: `util.Passthrough` (not under src/) writes
the captured request chunks verbatim to the destination and relays the
destination's reply back to the client unmodified; its observable
effect is the pair (bytes written to destination, bytes written to
client). -/
def passthroughEffect (chunks : List (List Nat)) (realReply : List Nat) :
    List (List Nat) × List (List Nat) :=
  (chunks, [realReply])

/-- The request-chunk list the TEST session starts with
(comInitDb.go line 514). -/
def initialTestRequests (requestBuffer : List Nat) : List (List Nat) :=
  [requestBuffer]

/- ===== Concrete instances used to evaluate the model ===== -/

/-- A re-encoder producing no bytes; used to evaluate the round-trip
guard at a concrete length mismatch. -/
def zeroEncB : Backend → List Nat := fun _ => []

/-- A re-encoder producing no bytes, response side. -/
def zeroEncF : Frontend → List Nat := fun _ => []

/-- A 60-byte startup frame: length field 60, protocol version 3.0. -/
def startupBuffer60 : List Nat := [0, 0, 0, 60, 0, 3, 0, 0] ++ List.replicate 52 0

/-- Decoded response scratch state with an authentication packet first
and a non-empty DataRows list. -/
def c1Wrapper : FrontendWrapperState :=
  { PacketTypes := ["R", "D"], DataRows := [{ RowValues := some ["1"] }] }

/-- A 6-byte response buffer whose first frame declares length 200:
tag 'R', big-endian length field 200, one extra byte. -/
def overrunBuffer : List Nat := [82, 0, 0, 0, 200, 0]

/-- A single DataRow response frame: tag 'D', length field 5, one
payload byte 'A'. -/
def c10Buffer : List Nat := [68, 0, 0, 0, 5, 65]

/-- The entry processDestBuffer produces for `c10Buffer` under
`zeroEncF`. -/
def c10Entry : Frontend :=
  { PacketTypes := ["D"], Identfier := "ServerResponse", Length := 0,
    Payload := "RAAAAAVB",
    DataRow := { RowValues := some ["A"] },
    DataRows := [{ RowValues := some ["A"] }],
    MsgType := 68 }

/-- A RECORD session state with one request entry, one response entry,
and the last event a response read. -/
def sampleRecordState : RecordState :=
  { pgRequests := [{}], pgResponses := [{}], isPreviousChunkRequest := false }

/-- A 40-byte client burst. -/
def burst40 : List Nat := List.replicate 40 1

/-- A structural response entry: PacketTypes present, Payload empty. -/
def replayEntryStructural : Frontend := { PacketTypes := ["Z"] }

/-- A raw response entry: base64 payload "QQ==" (the byte 65). -/
def replayEntryRaw : Frontend := { Payload := "QQ==" }

/- ===================================================================
   Theorems
   =================================================================== -/

/- ===== Generic helper lemmas ===== -/

theorem goRequestLoop_stop (buffer : List Nat) (fuel : Nat) (st : BackendWrapperState) (i : Nat)
    (h : ¬ i + 5 < buffer.length) : goRequestLoop buffer fuel st i = (st, []) := by
  cases fuel <;> simp [goRequestLoop, h]

theorem goResponseLoop_stop (buffer : List Nat) (fuel : Nat) (st : FrontendWrapperState)
    (ps : List pgproto3.ParameterStatus) (dataRows : List pgproto3.DataRow) (i : Nat)
    (h : ¬ i + 5 < buffer.length) : goResponseLoop buffer fuel st ps dataRows i = .ok (st, ps, dataRows) := by
  cases fuel <;> simp [goResponseLoop, h]

theorem base64Encode_length_pos (l : List Nat) (h : l ≠ []) : 0 < (base64Encode l).length := by
  match l with
  | [b0] => exact Nat.succ_pos 3
  | [b0, b1] => exact Nat.succ_pos 3
  | b0 :: b1 :: b2 :: rest =>
    rw [base64Encode, String.length_append]
    exact Nat.lt_of_lt_of_le (Nat.succ_pos 3) (Nat.le_add_right 4 _)

theorem base64Encode_ne_empty (l : List Nat) (h : l ≠ []) : base64Encode l ≠ "" := by
  intro he
  have := base64Encode_length_pos l h
  rw [he] at this
  exact Nat.lt_irrefl 0 this

theorem string_length_eq_zero_iff (s : String) : s.length = 0 ↔ s = "" := by
  constructor
  · intro h
    cases s with
    | mk data =>
      have hd : data = [] := List.length_eq_zero.mp h
      subst hd
      rfl
  · intro h
    subst h
    rfl

/- ===== C9: ComInitDb decode ===== -/

/-- C9: decodeComInitDb returns a structural error for every input
shorter than 2 bytes, and for every input of length at least 2 it
succeeds with Status the first byte and DbName the remaining bytes as
a string; decoding [0x02,'m','y','d','b'] yields
{Status := 0x02, DbName := "mydb"} and a single-byte input fails. -/
theorem decodeComInitDb_spec (data : List Nat) :
    (data.length < 2 → decodeComInitDb data = .error "data too short for COM_INIT_DB") ∧
    (2 ≤ data.length →
      decodeComInitDb data = .ok { Status := data.headD 0, DbName := bytesToString (data.drop 1) }) ∧
    decodeComInitDb [2, 109, 121, 100, 98] = .ok { Status := 2, DbName := "mydb" } ∧
    (∀ b, decodeComInitDb [b] = .error "data too short for COM_INIT_DB") := by
  refine ⟨fun h => ?_, fun h => ?_, by rfl, fun b => by rfl⟩
  · rw [decodeComInitDb, if_pos h]
  · rw [decodeComInitDb, if_neg (Nat.not_lt.mpr h)]

theorem decodeComInitDb_spec_witness :
    decodeComInitDb [7] = .error "data too short for COM_INIT_DB" ∧
    decodeComInitDb [2, 109, 121, 100, 98] = .ok { Status := 2, DbName := "mydb" } :=
  ⟨(decodeComInitDb_spec [7]).1 (by decide), (decodeComInitDb_spec [2, 109, 121, 100, 98]).2.2.1⟩

/- ===== C3: short buffers frame to nothing, without error ===== -/

/-- C3: for every buffer shorter than the 5-byte minimum frame header
the stream framer yields no frame and no error on either side: the
request loop returns the untouched scratch state with no slice taken,
the response loop returns ok with no packet decoded, and both
per-buffer processors succeed (no panic outcome). -/
theorem framer_short_buffer_empty (buffer : List Nat) (h : buffer.length < 5) :
    requestLoop buffer = ({}, []) ∧
    responseLoop buffer = .ok ({}, [], []) ∧
    (∀ encB reqLen, ∃ entries, processClientBuffer encB reqLen buffer = .ok entries) ∧
    (∀ encF reqLen, ∃ entries, processDestBuffer encF reqLen buffer = .ok entries) := by
  have h5 : ¬ 0 + 5 < buffer.length := by omega
  have hreq : requestLoop buffer = ({}, []) := goRequestLoop_stop _ _ _ _ h5
  have hresp : responseLoop buffer = .ok ({}, [], []) := goResponseLoop_stop _ _ _ _ _ _ h5
  refine ⟨hreq, hresp, fun encB reqLen => ?_, fun encF reqLen => ?_⟩
  · by_cases hb : base64Encode buffer = ""
    · exact ⟨[], by simp [processClientBuffer, hb]⟩
    · have hlt : ¬ (5 : Nat) < buffer.length := by omega
      refine ⟨if isStartupPacket buffer then
        [{ Identfier := "StartupRequest", Payload := base64Encode buffer }] else [], ?_⟩
      simp [processClientBuffer, hb, hlt, Except.map]
  · by_cases hb : base64Encode buffer = ""
    · exact ⟨[], by simp [processDestBuffer, hb]⟩
    · have hlt : ¬ (5 : Nat) < buffer.length := by omega
      refine ⟨if base64Encode buffer = "Tg==" ∨ buffer.length ≤ 5 then
        [{ Payload := base64Encode buffer }] else [], ?_⟩
      simp [processDestBuffer, hb, hlt, Except.map]

theorem framer_short_buffer_empty_witness :
    requestLoop [1, 2, 3] = ({}, []) ∧ responseLoop [1, 2, 3] = .ok ({}, [], []) :=
  ⟨(framer_short_buffer_empty [1, 2, 3] (by decide)).1,
   (framer_short_buffer_empty [1, 2, 3] (by decide)).2.1⟩

/- ===== C2: declared frame length past the buffer end ===== -/

/-- Every slice the request-side framing loop takes stays inside the
buffer: the bound check at comInitDb.go line 273 halts the loop before
an overlong frame is consumed. -/
theorem requestFramer_ranges_bounded (buffer : List Nat) (fuel : Nat)
    (st : BackendWrapperState) (i : Nat) :
    ∀ r ∈ (goRequestLoop buffer fuel st i).2, r.2 ≤ buffer.length := by
  induction fuel generalizing st i with
  | zero => simp [goRequestLoop]
  | succ n ih =>
    intro r hr
    rw [goRequestLoop] at hr
    by_cases h1 : i + 5 < buffer.length
    · rw [if_pos h1] at hr
      by_cases h2 : buffer.length < i + beUint32At buffer (i + 1) + 1
      · simp only [h2, if_true] at hr
        simp at hr
      · simp only [h2, if_false] at hr
        simp only [List.mem_cons] at hr
        rcases hr with hr | hr
        · subst hr
          exact Nat.le_of_not_lt h2
        · exact ih _ _ r hr
    · rw [if_neg h1] at hr
      simp at hr

/-- C2 (code-bug witness): on the 6-byte response buffer whose first
frame declares length 200 the response-side framing loop evaluates the
slice `buffer[0:201]` past the buffer end (comInitDb.go line 385 has no
bound check), while the request-side loop on the same buffer halts
without taking any slice (line 273). -/
theorem responseFramer_overrun_at_failing_input :
    responseLoop overrunBuffer = .error (.sliceOverrun 0 201 6) ∧
    (requestLoop overrunBuffer).2 = [] := by
  exact ⟨by rfl, by rfl⟩

/- ===== C1: round-trip guard and its exemptions ===== -/

/-- C1 counterexample: the claim says the exempt authentication
message "R" on the response side skips the raw fallback even on a
length mismatch.  On the decoded state `c1Wrapper` (first packet type
"R", non-empty DataRows) with re-encoded length 0 against buffer
length 20, the guard still stores the raw fallback payload "abc":
`len(DataRows) > 0` overrides the exemption (comInitDb.go line 465). -/
theorem roundTripGuard_exemption_counterexample :
    (responseDraft c1Wrapper 0).PacketTypes.headD "" = "R" ∧
    (zeroEncF (responseDraft c1Wrapper 0)).length ≠ 20 ∧
    mkResponseMock zeroEncF c1Wrapper 0 20 "abc" =
      .ok { responseDraft c1Wrapper 0 with Payload := "abc" } ∧
    ({ responseDraft c1Wrapper 0 with Payload := "abc" } : Frontend).Payload ≠ "" := by
  refine ⟨by rfl, by decide, by rfl, by decide⟩

/-- C1 (amended): on a round-trip length mismatch the mock entry
carries the raw base64 fallback payload, and the exempt first packet
types ('p' request side, 'R' response side) skip the fallback on a
mismatch, except that a response entry with a non-empty DataRows list
carries the fallback regardless of the exemption and regardless of the
lengths.  Stated as an exact characterisation of when the entry's
Payload is the fallback. -/
theorem roundTripGuard_amended
    (encB : Backend → List Nat) (encF : Frontend → List Nat)
    (wb : BackendWrapperState) (wf : FrontendWrapperState)
    (reqLen bufLen : Nat) (bufStr : String) (hs : bufStr ≠ "") :
    (∀ t e, wb.PacketTypes.head? = some t →
      mkRequestMock encB wb reqLen bufLen bufStr = .ok e →
      (e.Payload = bufStr ↔ ((encB (requestDraft wb reqLen)).length ≠ bufLen ∧ t ≠ "p"))) ∧
    (∀ t e, wf.PacketTypes.head? = some t →
      mkResponseMock encF wf reqLen bufLen bufStr = .ok e →
      (e.Payload = bufStr ↔
        (((encF (responseDraft wf reqLen)).length ≠ bufLen ∧ t ≠ "R") ∨
          (responseDraft wf reqLen).DataRows ≠ []))) := by
  constructor
  · intro t e ht he
    have hdp : (requestDraft wb reqLen).PacketTypes = wb.PacketTypes := rfl
    simp only [mkRequestMock, hdp, ht] at he
    by_cases hm : (encB (requestDraft wb reqLen)).length ≠ bufLen
    · rw [if_pos hm] at he
      by_cases hp : t ≠ "p"
      · rw [if_pos hp] at he
        cases he
        simp [hm, hp]
      · rw [if_neg hp] at he
        cases he
        have : (requestDraft wb reqLen).Payload = "" := rfl
        simp [this, hm, hp, Ne.symm hs]
    · rw [if_neg hm] at he
      cases he
      have : (requestDraft wb reqLen).Payload = "" := rfl
      simp [this, hm, Ne.symm hs]
  · intro t e ht he
    have hdp : (responseDraft wf reqLen).PacketTypes = wf.PacketTypes := rfl
    simp only [mkResponseMock, hdp, ht] at he
    by_cases hm : (encF (responseDraft wf reqLen)).length ≠ bufLen
    · rw [if_pos hm] at he
      by_cases hg : t ≠ "R" ∨ (responseDraft wf reqLen).DataRows ≠ []
      · rw [if_pos hg] at he
        cases he
        simp [hm, hg]
      · rw [if_neg hg] at he
        cases he
        have hpl : (responseDraft wf reqLen).Payload = "" := rfl
        push_neg at hg
        simp [hpl, hm, hg.1, hg.2, Ne.symm hs]
    · rw [if_neg hm] at he
      by_cases hd : (responseDraft wf reqLen).DataRows ≠ []
      · rw [if_pos hd] at he
        cases he
        simp [hm, hd]
      · rw [if_neg hd] at he
        cases he
        have hpl : (responseDraft wf reqLen).Payload = "" := rfl
        push_neg at hd
        simp [hpl, hm, hd, Ne.symm hs]

theorem roundTripGuard_amended_witness :
    mkRequestMock zeroEncB { PacketTypes := ["Q"] } 0 7 "QUFB" =
      .ok { requestDraft { PacketTypes := ["Q"] } 0 with Payload := "QUFB" } ∧
    ({ requestDraft { PacketTypes := ["Q"] } 0 with Payload := "QUFB" } : Backend).Payload = "QUFB" := by
  have h := (roundTripGuard_amended zeroEncB zeroEncF { PacketTypes := ["Q"] } {} 0 7 "QUFB"
    (by decide)).1 "Q" { requestDraft { PacketTypes := ["Q"] } 0 with Payload := "QUFB" }
    (by rfl) (by rfl)
  exact ⟨by rfl, h.mpr ⟨by decide, by decide⟩⟩

/- ===== C10: DataRow-bearing responses always carry the fallback ===== -/

/-- If the response-side guard accepts an entry whose DataRows list is
non-empty, the entry's Payload is the raw fallback. -/
theorem mkResponseMock_dataRows (encF : Frontend → List Nat) (w : FrontendWrapperState)
    (reqLen bufLen : Nat) (bufStr : String) (m : Frontend)
    (h : mkResponseMock encF w reqLen bufLen bufStr = .ok m) (hd : m.DataRows ≠ []) :
    m.Payload = bufStr := by
  simp only [mkResponseMock] at h
  by_cases hm : (encF (responseDraft w reqLen)).length ≠ bufLen
  · rw [if_pos hm] at h
    cases hh : (responseDraft w reqLen).PacketTypes.head? with
    | none => simp only [hh] at h; cases h
    | some t =>
      simp only [hh] at h
      by_cases hg : t ≠ "R" ∨ (responseDraft w reqLen).DataRows ≠ []
      · rw [if_pos hg] at h
        cases h
        rfl
      · rw [if_neg hg] at h
        cases h
        push_neg at hg
        exact absurd hg.2 hd
  · rw [if_neg hm] at h
    by_cases hg : (responseDraft w reqLen).DataRows ≠ []
    · rw [if_pos hg] at h
      cases h
      rfl
    · rw [if_neg hg] at h
      cases h
      exact absurd (not_not.mp hg) hd

/-- C10: in RECORD mode every structurally decoded response entry
whose DataRows list is non-empty carries the raw base64 fallback
payload, with no condition on the re-encoded length. -/
theorem dataRows_force_fallback (encF : Frontend → List Nat) (reqLen : Nat)
    (buffer : List Nat) (l : List Frontend) (e : Frontend)
    (hp : processDestBuffer encF reqLen buffer = .ok l)
    (he : e ∈ l) (hd : e.DataRows ≠ []) :
    e.Payload = base64Encode buffer := by
  simp only [processDestBuffer] at hp
  by_cases hb : base64Encode buffer = ""
  · rw [if_pos hb] at hp
    simp at hp
    subst hp
    simp at he
  · rw [if_neg hb] at hp
    by_cases hcond : isStartupPacket buffer = false ∧ 5 < buffer.length ∧ base64Encode buffer ≠ "Tg=="
    · rw [if_pos hcond] at hp
      have hraw : ¬ (base64Encode buffer = "Tg==" ∨ buffer.length ≤ 5) := by
        push_neg
        exact ⟨hcond.2.2, by omega⟩
      rw [if_neg hraw] at hp
      cases hrl : responseLoop buffer with
      | error p => rw [hrl] at hp; cases hp
      | ok res =>
        rw [hrl] at hp
        obtain ⟨w, ps, dataRows⟩ := res
        cases hmk : mkResponseMock encF
            (if dataRows ≠ [] then
              { (if ps ≠ [] then { w with ParameterStatusCombined := ps } else w) with
                DataRows := dataRows }
             else (if ps ≠ [] then { w with ParameterStatusCombined := ps } else w))
            reqLen buffer.length (base64Encode buffer) with
        | error p => simp only [hmk, Except.map] at hp; cases hp
        | ok m =>
          simp only [hmk, Except.map] at hp
          cases hp
          simp only [List.append_nil, List.mem_singleton] at he
          subst he
          exact mkResponseMock_dataRows _ _ _ _ _ _ hmk hd
    · rw [if_neg hcond] at hp
      simp only [Except.map, Except.ok.injEq] at hp
      subst hp
      simp only [List.nil_append] at he
      by_cases hraw : base64Encode buffer = "Tg==" ∨ buffer.length ≤ 5
      · rw [if_pos hraw] at he
        simp only [List.mem_singleton] at he
        subst he
        exact absurd rfl hd
      · rw [if_neg hraw] at he
        simp at he

theorem dataRows_force_fallback_witness :
    c10Entry.Payload = base64Encode c10Buffer :=
  dataRows_force_fallback zeroEncF 0 c10Buffer [c10Entry] c10Entry (by rfl)
    (List.mem_singleton.mpr rfl) (by decide)

/- ===== C5: startup frames are recorded opaquely ===== -/

/-- C5: for every buffer of at least 8 bytes whose 4-byte field at
offset 4 is the startup version tag 196608 or the SSL/cancel code
80877103, the protocol detector OutgoingType returns true, the
isStartupPacket check used by the RECORD loop agrees, and processing
the buffer as a client read records exactly one entry with Identfier
"StartupRequest", Payload the base64 encoding of the full buffer, and
every structural field at its zero value. -/
theorem startup_request_recorded (encB : Backend → List Nat) (reqLen : Nat)
    (buffer : List Nat) (hlen : 8 ≤ buffer.length)
    (hver : beUint32At buffer 4 = 196608 ∨ beUint32At buffer 4 = 80877103) :
    OutgoingType buffer = true ∧
    isStartupPacket buffer = true ∧
    processClientBuffer encB reqLen buffer =
      .ok [{ Identfier := "StartupRequest", Payload := base64Encode buffer }] := by
  have h8 : ¬ buffer.length < 8 := by omega
  have hout : OutgoingType buffer = true := by
    rw [OutgoingType, if_neg h8]
    rcases hver with h | h
    · rw [h]
      norm_num
    · rw [h]
      norm_num
  have hst : isStartupPacket buffer = true := by
    rw [isStartupPacket, if_neg h8]
    rcases hver with h | h <;> rw [h] <;> norm_num
  have hne : buffer ≠ [] := by
    intro h
    rw [h] at hlen
    simp at hlen
  have hb : base64Encode buffer ≠ "" := base64Encode_ne_empty buffer hne
  refine ⟨hout, hst, ?_⟩
  have hcond : ¬ (isStartupPacket buffer = false ∧ 5 < buffer.length) := by
    intro h
    rw [hst] at h
    cases h.1
  rw [processClientBuffer]
  rw [if_neg hb, if_neg hcond, if_pos hst]
  rfl

theorem startup_request_recorded_witness :
    OutgoingType startupBuffer60 = true ∧
    processClientBuffer zeroEncB 0 startupBuffer60 =
      .ok [{ Identfier := "StartupRequest", Payload := base64Encode startupBuffer60 }] :=
  ⟨(startup_request_recorded zeroEncB 0 startupBuffer60 (by decide) (Or.inl (by decide))).1,
   (startup_request_recorded zeroEncB 0 startupBuffer60 (by decide) (Or.inl (by decide))).2.2⟩

/- ===== C4: the chunk-flush guard ===== -/

theorem flushGuard_iff (s : RecordState) :
    flushGuard s = true ↔
      s.isPreviousChunkRequest = false ∧ s.pgRequests ≠ [] ∧ s.pgResponses ≠ [] := by
  simp [flushGuard, and_assoc]

/-- C4: in RECORD mode a Mock is emitted by a step exactly when the
event is the interrupt signal or a client read, the last event was not
a request read, and both accumulators are non-empty; an emitting step
emits the pending chunk as one Mock and resets both accumulators (the
request list then holds only the entries of the event's own buffer);
client reads set the last-event flag, destination reads clear it, the
interrupt signal leaves it unchanged. -/
theorem recordFlush_guard (encB : Backend → List Nat) (encF : Frontend → List Nat)
    (reqLen : Nat) (s : RecordState) (e : RecordEvent) :
    ((recordStep encB encF reqLen s e).emitted ≠ [] ↔
      ((e = .sigint ∨ ∃ b, e = .clientData b) ∧
        s.isPreviousChunkRequest = false ∧ s.pgRequests ≠ [] ∧ s.pgResponses ≠ [])) ∧
    ((recordStep encB encF reqLen s e).emitted ≠ [] →
      (recordStep encB encF reqLen s e).emitted = [mkRecordMock s] ∧
      ∀ s', (recordStep encB encF reqLen s e).next = .ok s' →
        s'.pgResponses = [] ∧
        (e = .sigint → s'.pgRequests = []) ∧
        (∀ b, e = .clientData b →
          ∃ entries, processClientBuffer encB reqLen b = .ok entries ∧ s'.pgRequests = entries)) ∧
    (∀ b s', e = .clientData b → (recordStep encB encF reqLen s e).next = .ok s' →
      s'.isPreviousChunkRequest = true) ∧
    (∀ b s', e = .destData b → (recordStep encB encF reqLen s e).next = .ok s' →
      s'.isPreviousChunkRequest = false) ∧
    (e = .sigint → ∀ s', (recordStep encB encF reqLen s e).next = .ok s' →
      s'.isPreviousChunkRequest = s.isPreviousChunkRequest) := by
  cases e with
  | sigint =>
    by_cases hg : flushGuard s = true
    · have hstep : recordStep encB encF reqLen s .sigint =
          { emitted := [mkRecordMock s],
            next := .ok { pgRequests := [], pgResponses := [],
                          isPreviousChunkRequest := s.isPreviousChunkRequest },
            terminated := true } := by
        simp [recordStep, hg]
      obtain ⟨h1, h2, h3⟩ := (flushGuard_iff s).mp hg
      rw [hstep]
      refine ⟨?_, ?_, ?_, ?_, ?_⟩
      · simp [h1, h2, h3]
      · intro _
        refine ⟨rfl, fun s' hs' => ?_⟩
        cases hs'
        exact ⟨rfl, fun _ => rfl, fun b hb => by cases hb⟩
      · intro b s' hb
        cases hb
      · intro b s' hb
        cases hb
      · intro _ s' hs'
        cases hs'
        rfl
    · have hstep : recordStep encB encF reqLen s .sigint =
          { emitted := [], next := .ok s, terminated := false } := by
        simp [recordStep, hg]
      rw [hstep]
      refine ⟨?_, ?_, ?_, ?_, ?_⟩
      · constructor
        · intro hfalse
          exact absurd rfl hfalse
        · rintro ⟨-, hf1, hf2, hf3⟩
          exact absurd ((flushGuard_iff s).mpr ⟨hf1, hf2, hf3⟩) hg
      · intro hfalse
        exact absurd rfl hfalse
      · intro b s' hb
        cases hb
      · intro b s' hb
        cases hb
      · intro _ s' hs'
        cases hs'
        rfl
  | clientData buffer =>
    cases hpc : processClientBuffer encB reqLen buffer with
    | error p =>
      by_cases hg : flushGuard s = true
      · have hstep : recordStep encB encF reqLen s (.clientData buffer) =
            { emitted := [mkRecordMock s], next := .error p, terminated := true } := by
          simp [recordStep, hg, hpc]
        obtain ⟨h1, h2, h3⟩ := (flushGuard_iff s).mp hg
        rw [hstep]
        refine ⟨?_, ?_, ?_, ?_, ?_⟩
        · simp [h1, h2, h3]
        · intro _
          exact ⟨rfl, fun s' hs' => by cases hs'⟩
        · intro b s' hb hs'
          cases hs'
        · intro b s' hb
          cases hb
        · intro h
          cases h
      · have hstep : recordStep encB encF reqLen s (.clientData buffer) =
            { emitted := [], next := .error p, terminated := true } := by
          simp [recordStep, hg, hpc]
        rw [hstep]
        refine ⟨?_, ?_, ?_, ?_, ?_⟩
        · constructor
          · intro hfalse
            exact absurd rfl hfalse
          · rintro ⟨-, hf1, hf2, hf3⟩
            exact absurd ((flushGuard_iff s).mpr ⟨hf1, hf2, hf3⟩) hg
        · intro hfalse
          exact absurd rfl hfalse
        · intro b s' hb hs'
          cases hs'
        · intro b s' hb
          cases hb
        · intro h
          cases h
    | ok entries =>
      by_cases hg : flushGuard s = true
      · have hstep : recordStep encB encF reqLen s (.clientData buffer) =
            { emitted := [mkRecordMock s],
              next := .ok { pgRequests := entries, pgResponses := [],
                            isPreviousChunkRequest := true },
              terminated := false } := by
          simp [recordStep, hg, hpc]
        obtain ⟨h1, h2, h3⟩ := (flushGuard_iff s).mp hg
        rw [hstep]
        refine ⟨?_, ?_, ?_, ?_, ?_⟩
        · simp [h1, h2, h3]
        · intro _
          refine ⟨rfl, fun s' hs' => ?_⟩
          cases hs'
          refine ⟨rfl, fun hb => ?_, fun b hb => ?_⟩
          · cases hb
          · cases hb
            exact ⟨entries, hpc, rfl⟩
        · intro b s' hb hs'
          cases hs'
          rfl
        · intro b s' hb
          cases hb
        · intro h
          cases h
      · have hstep : recordStep encB encF reqLen s (.clientData buffer) =
            { emitted := [],
              next := .ok { pgRequests := s.pgRequests ++ entries, pgResponses := s.pgResponses,
                            isPreviousChunkRequest := true },
              terminated := false } := by
          simp [recordStep, hg, hpc]
        rw [hstep]
        refine ⟨?_, ?_, ?_, ?_, ?_⟩
        · constructor
          · intro hfalse
            exact absurd rfl hfalse
          · rintro ⟨-, hf1, hf2, hf3⟩
            exact absurd ((flushGuard_iff s).mpr ⟨hf1, hf2, hf3⟩) hg
        · intro hfalse
          exact absurd rfl hfalse
        · intro b s' hb hs'
          cases hs'
          rfl
        · intro b s' hb
          cases hb
        · intro h
          cases h
  | destData buffer =>
    cases hpd : processDestBuffer encF reqLen buffer with
    | error p =>
      have hstep : recordStep encB encF reqLen s (.destData buffer) =
          { emitted := [], next := .error p, terminated := true } := by
        simp [recordStep, hpd]
      rw [hstep]
      refine ⟨?_, ?_, ?_, ?_, ?_⟩
      · constructor
        · intro hfalse
          exact absurd rfl hfalse
        · rintro ⟨hev, -⟩
          rcases hev with hev | ⟨b, hev⟩ <;> cases hev
      · intro hfalse
        exact absurd rfl hfalse
      · intro b s' hb
        cases hb
      · intro b s' hb hs'
        cases hs'
      · intro h
        cases h
    | ok entries =>
      have hstep : recordStep encB encF reqLen s (.destData buffer) =
          { emitted := [],
            next := .ok { pgRequests := s.pgRequests, pgResponses := s.pgResponses ++ entries,
                          isPreviousChunkRequest := false },
            terminated := false } := by
        simp [recordStep, hpd]
      rw [hstep]
      refine ⟨?_, ?_, ?_, ?_, ?_⟩
      · constructor
        · intro hfalse
          exact absurd rfl hfalse
        · rintro ⟨hev, -⟩
          rcases hev with hev | ⟨b, hev⟩ <;> cases hev
      · intro hfalse
        exact absurd rfl hfalse
      · intro b s' hb
        cases hb
      · intro b s' hb hs'
        cases hs'
        rfl
      · intro h
        cases h
  | ioError =>
    have hstep : recordStep encB encF reqLen s .ioError =
        { emitted := [], next := .ok s, terminated := true } := by
      simp [recordStep]
    rw [hstep]
    refine ⟨?_, ?_, ?_, ?_, ?_⟩
    · constructor
      · intro hfalse
        exact absurd rfl hfalse
      · rintro ⟨hev, -⟩
        rcases hev with hev | ⟨b, hev⟩ <;> cases hev
    · intro hfalse
      exact absurd rfl hfalse
    · intro b s' hb
      cases hb
    · intro b s' hb
      cases hb
    · intro h
      cases h

theorem recordFlush_guard_witness :
    (recordStep zeroEncB zeroEncF 0 sampleRecordState .sigint).emitted = [mkRecordMock sampleRecordState] :=
  (((recordFlush_guard zeroEncB zeroEncF 0 sampleRecordState .sigint).2.1
    ((recordFlush_guard zeroEncB zeroEncF 0 sampleRecordState .sigint).1.mpr
      ⟨Or.inl rfl, rfl, by decide, by decide⟩))).1

/- ===== C6: burst collection and single matcher invocation ===== -/

/-- C6: the TEST-mode replayer sets a 10 ms idle-read deadline; a read
that fails with a network timeout ends the burst as a non-error
(completing with the chunks read so far); and whenever a burst
completes non-empty the matcher is invoked exactly once, with the
ordered chunk list of that burst. -/
theorem testMode_burst_matcher_once (encF : Frontend → List Nat)
    (matcher : List (List Nat) → Except String (Bool × List Frontend))
    (pgRequests : List (List Nat)) (reads : List ReadOutcome)
    (chunks : List (List Nat)) (rest : List ReadOutcome)
    (hc : collectClientReads reads pgRequests = .complete chunks rest)
    (hne : chunks ≠ []) :
    (testIteration encF matcher pgRequests reads).matcherCalls = [chunks] ∧
    readDeadlineMs = 10 ∧
    (∀ acc r, collectClientReads (ReadOutcome.timeout :: r) acc = .complete acc r) := by
  refine ⟨?_, rfl, fun acc r => rfl⟩
  have hni : chunks.isEmpty = false := by
    cases chunks with
    | nil => exact absurd rfl hne
    | cons a l => rfl
  rw [testIteration, hc]
  simp only [hni, Bool.false_eq_true, if_false]
  cases hm : matcher chunks with
  | error e => simp [hm]
  | ok p =>
    obtain ⟨matched, resps⟩ := p
    cases matched with
    | false => simp [hm]
    | true =>
      cases hw : replayWrites encF resps with
      | error e => simp [hm, hw]
      | ok ws => simp [hm, hw]

theorem testMode_burst_matcher_once_witness :
    (testIteration zeroEncF (fun _ => .ok (false, [])) (initialTestRequests burst40)
      [ReadOutcome.timeout]).matcherCalls = [[burst40]] :=
  (testMode_burst_matcher_once zeroEncF (fun _ => .ok (false, [])) (initialTestRequests burst40)
    [ReadOutcome.timeout] [burst40] [] (by rfl) (by simp)).1

/- ===== C7: no match means verbatim passthrough, nothing recorded ===== -/

/-- C7: in TEST mode, when the matcher reports no match the iteration's
action is a passthrough of the entire captured burst (whose modelled
effect writes the chunks verbatim to the destination and relays the
real reply to the client unmodified), no error is raised, no Mock is
recorded, and the session loop continues with the same request list. -/
theorem testMode_noMatch_passthrough (encF : Frontend → List Nat)
    (matcher : List (List Nat) → Except String (Bool × List Frontend))
    (pgRequests : List (List Nat)) (reads : List ReadOutcome)
    (chunks : List (List Nat)) (rest : List ReadOutcome) (resps : List Frontend)
    (hc : collectClientReads reads pgRequests = .complete chunks rest)
    (hne : chunks ≠ [])
    (hm : matcher chunks = .ok (false, resps)) :
    (testIteration encF matcher pgRequests reads).action = .passthrough chunks ∧
    (testIteration encF matcher pgRequests reads).failed = none ∧
    (testIteration encF matcher pgRequests reads).recordedMocks = [] ∧
    (testIteration encF matcher pgRequests reads).nextRequests = chunks ∧
    (∀ reply, passthroughEffect chunks reply = (chunks, [reply])) := by
  have hni : chunks.isEmpty = false := by
    cases chunks with
    | nil => exact absurd rfl hne
    | cons a l => rfl
  have hstep : testIteration encF matcher pgRequests reads =
      { matcherCalls := [chunks], action := .passthrough chunks, nextRequests := chunks } := by
    rw [testIteration, hc]
    simp only [hni, Bool.false_eq_true, if_false, hm]
  rw [hstep]
  exact ⟨rfl, rfl, rfl, rfl, fun reply => rfl⟩

theorem testMode_noMatch_passthrough_witness :
    (testIteration zeroEncF (fun _ => .ok (false, [])) (initialTestRequests burst40)
      [ReadOutcome.timeout]).action = .passthrough [burst40] :=
  (testMode_noMatch_passthrough zeroEncF (fun _ => .ok (false, [])) (initialTestRequests burst40)
    [ReadOutcome.timeout] [burst40] [] [] (by rfl) (by simp) (by rfl)).1

/- ===== C8: replay encoding choice and write order ===== -/

theorem string_length_zero_iff_empty (s : String) : s.length = 0 ↔ s = "" :=
  string_length_eq_zero_iff s

/-- C8: on a TEST-mode match the bytes written per response entry are
chosen exactly as the spec states (structural re-encoding when
PacketTypes is non-empty and Payload empty, base64 payload decoding
otherwise) and in entry order: replayWrites is the ordered
effectful map of specEntryBytes, and the iteration's action writes
that list. -/
theorem testMode_replay_encoding_choice (encF : Frontend → List Nat) :
    (∀ resps, replayWrites encF resps = resps.mapM (specEntryBytes encF)) ∧
    (∀ (matcher : List (List Nat) → Except String (Bool × List Frontend))
        (pgRequests : List (List Nat)) (reads : List ReadOutcome)
        (chunks : List (List Nat)) (rest : List ReadOutcome)
        (resps : List Frontend) (ws : List (List Nat)),
      collectClientReads reads pgRequests = .complete chunks rest → chunks ≠ [] →
      matcher chunks = .ok (true, resps) → replayWrites encF resps = .ok ws →
      (testIteration encF matcher pgRequests reads).action = .replay ws) := by
  constructor
  · intro resps
    induction resps with
    | nil => rfl
    | cons r rest ih =>
      rw [List.mapM_cons]
      have hiff : (r.PacketTypes.length > 0 ∧ r.Payload.length = 0) ↔
          (r.PacketTypes ≠ [] ∧ r.Payload = "") := by
        constructor
        · rintro ⟨h1, h2⟩
          exact ⟨List.ne_nil_of_length_pos h1, (string_length_zero_iff_empty r.Payload).mp h2⟩
        · rintro ⟨h1, h2⟩
          exact ⟨List.length_pos_of_ne_nil h1, (string_length_zero_iff_empty r.Payload).mpr h2⟩
      have hsel : (if r.PacketTypes.length > 0 ∧ r.Payload.length = 0 then
          Except.ok (encF r) else base64Decode r.Payload) = specEntryBytes encF r := by
        by_cases hcond : r.PacketTypes.length > 0 ∧ r.Payload.length = 0
        · rw [if_pos hcond, specEntryBytes, if_pos (hiff.mp hcond)]
        · rw [if_neg hcond, specEntryBytes, if_neg (fun hc => hcond (hiff.mpr hc))]
      rw [replayWrites, hsel, ih]
      cases hs : specEntryBytes encF r with
      | error e => rfl
      | ok bytes =>
        cases hrest : List.mapM (specEntryBytes encF) rest with
        | error e => rfl
        | ok ws => rfl
  · intro matcher pgRequests reads chunks rest resps ws hc hne hm hw
    have hni : chunks.isEmpty = false := by
      cases chunks with
      | nil => exact absurd rfl hne
      | cons a l => rfl
    rw [testIteration, hc]
    simp only [hni, Bool.false_eq_true, if_false, hm, hw]

theorem testMode_replay_encoding_choice_witness :
    (testIteration (fun _ => [9]) (fun _ => .ok (true, [replayEntryStructural, replayEntryRaw]))
      (initialTestRequests burst40) [ReadOutcome.timeout]).action = .replay [[9], [65]] :=
  (testMode_replay_encoding_choice (fun _ => [9])).2
    (fun _ => .ok (true, [replayEntryStructural, replayEntryRaw]))
    (initialTestRequests burst40) [ReadOutcome.timeout] [burst40] []
    [replayEntryStructural, replayEntryRaw] [[9], [65]]
    (by rfl) (by simp) (by rfl) (by rfl)

end Keploy
